import Mathlib

/-!
Verification of the chain_plugin coordination layer
(src/plugins/chain_plugin/chain_plugin.cpp) against its natural-language
specification.  The C++ operations are shallowly embedded as executable
Lean functions; machine integers are modelled as Nat with explicit
reduction modulo 2^32 where uint32_t overflow matters, fallible code is
modelled with explicit outcome types, and the filesystem effects of the
recovery routine are recorded as an explicit ordered action trace.
-/

/-! ## Reversible-store recovery (chain_plugin::recover_reversible_blocks, lines 336-415) -/

/-- Modulus of the C++ uint32_t block-height arithmetic. -/
def U32 : Nat := 4294967296

/-- One on-disk reversible block record.  `blocknum` is the uint32_t height;
`valid` is true when the decode/re-encode round trip
(`itr->get_block()` / `ubo.set_block(...)`, line 397) succeeds and false when
it raises (a malformed payload). -/
structure RevRecord where
  blocknum : Nat
  valid : Bool
deriving DecidableEq, Repr

/-- Result of the initial read-only open of the live store (line 339):
success means the store is clean; a std::runtime_error is the recoverable
corruption signal (line 342); any other exception is re-raised (lines 344-346). -/
inductive OpenResult
  | clean
  | dirtySignal
  | otherError (e : Nat)
deriving DecidableEq, Repr

/-- Input of one recover_reversible_blocks run.  `explicitNewDir` is whether the
optional `new_db_dir` argument was supplied (line 355); `backupExists` is
whether a directory already exists at the computed timestamp-suffixed backup
name (checked at line 366); `backupRecords` are the records of the backup
store iterated in ascending height order (line 387-388). -/
structure RecoverInput where
  openLive : OpenResult
  explicitNewDir : Bool
  backupExists : Bool
  backupRecords : List RevRecord

/-- Filesystem mutations performed by the recovery routine, in order. -/
inductive FsAction
  | renameLiveToBackup
  | createFreshLive
  | writeRecord (blocknum : Nat)
deriving DecidableEq, Repr

/-- Outcome of recover_reversible_blocks.  `notRecovered` is `return false`
(line 340); `raised e` re-raises a non-runtime_error open failure (line 345);
`backupNameTaken` is the FC_ASSERT at line 366 firing; `recovered` is
`return true` (line 414) carrying the heights written into the fresh live
store and the `num`/`start`/`end` counters used for the summary log. -/
inductive RecoverResult
  | notRecovered
  | raised (e : Nat)
  | backupNameTaken
  | recovered (store : List Nat) (num startH endH : Nat)
deriving DecidableEq, Repr

/-- The record-copy loop of lines 393-401.  Arguments: remaining records,
current `end` counter, current `num` counter, heights written so far.  The
gap FC_ASSERT (line 394) and a failing decode/re-encode (line 397) both raise
inside the surrounding try block and are swallowed by the blank catch at
line 403, so the loop simply stops, keeping what was already written. -/
def copyLoop : List RevRecord → Nat → Nat → List Nat → List Nat × Nat × Nat
  | [], e, n, store => (store, n, e)
  | r :: rest, e, n, store =>
    if r.blocknum = (e + 1) % U32 then
      if r.valid then
        copyLoop rest r.blocknum (n + 1) (store ++ [r.blocknum])
      else (store, n, e)
    else (store, n, e)

/-- Counters of a finished copy run, mirroring the local variables
`num`, `start`, `end` of lines 381-383 plus the contents of the new store. -/
structure CopyOutcome where
  store : List Nat
  num : Nat
  startH : Nat
  endH : Nat
deriving DecidableEq, Repr

/-- The whole guarded copy phase (lines 384-404): on a nonempty backup index
the first record fixes `start` and `end` is initialised to `start - 1` in
uint32_t arithmetic (line 391), then the loop runs over all records
including the first. -/
def runCopy : List RevRecord → CopyOutcome
  | [] => ⟨[], 0, 0, 0⟩
  | r :: rest =>
    ⟨(copyLoop (r :: rest) ((r.blocknum + U32 - 1) % U32) 0 []).1,
     (copyLoop (r :: rest) ((r.blocknum + U32 - 1) % U32) 0 []).2.1,
     r.blocknum,
     (copyLoop (r :: rest) ((r.blocknum + U32 - 1) % U32) 0 []).2.2⟩

/-- chain_plugin::recover_reversible_blocks, lines 336-415, together with the
ordered filesystem-action trace it performs.  A clean open returns false with
nothing touched; a non-recoverable open error is re-raised with nothing
touched; in the rename path an already-existing backup directory fails the
FC_ASSERT at line 366 before any mutation; otherwise the live directory is
(re)created fresh and the copy phase runs, after which the function
unconditionally returns true (line 414). -/
def recover_reversible_blocks (inp : RecoverInput) : RecoverResult × List FsAction :=
  match inp.openLive with
  | .clean => (.notRecovered, [])
  | .otherError e => (.raised e, [])
  | .dirtySignal =>
    if inp.explicitNewDir then
      (.recovered (runCopy inp.backupRecords).store (runCopy inp.backupRecords).num
         (runCopy inp.backupRecords).startH (runCopy inp.backupRecords).endH,
       FsAction.createFreshLive ::
         (runCopy inp.backupRecords).store.map FsAction.writeRecord)
    else if inp.backupExists then (.backupNameTaken, [])
    else
      (.recovered (runCopy inp.backupRecords).store (runCopy inp.backupRecords).num
         (runCopy inp.backupRecords).startH (runCopy inp.backupRecords).endH,
       FsAction.renameLiveToBackup :: FsAction.createFreshLive ::
         (runCopy inp.backupRecords).store.map FsAction.writeRecord)

/-- Whether the recovery routine reported `recovered = true`. -/
def isRecovered : RecoverResult → Bool
  | .recovered _ _ _ _ => true
  | _ => false

/-- Heights persisted in the live store by a recovery result. -/
def storeOf : RecoverResult → List Nat
  | .recovered s _ _ _ => s
  | _ => []

/-- A run of records is valid and height-contiguous starting at the given
expected height (`n`), with uint32_t wraparound on the successor. -/
def contigValidFrom : Nat → List RevRecord → Bool
  | _, [] => true
  | n, r :: rest =>
    (r.blocknum == n) && r.valid && contigValidFrom ((r.blocknum + 1) % U32) rest

/-- Height of the last record of a run, defaulting to the incoming `end`
counter when the run is empty (the value the C++ `end` variable holds after
the loop consumed exactly that run). -/
def endOf (e : Nat) : List RevRecord → Nat
  | [] => e
  | r :: rest => endOf r.blocknum rest

lemma contig_cons (n : Nat) (r : RevRecord) (l : List RevRecord)
    (h : contigValidFrom n (r :: l) = true) :
    r.blocknum = n ∧ r.valid = true ∧
      contigValidFrom ((r.blocknum + 1) % U32) l = true := by
  simp only [contigValidFrom, Bool.and_eq_true, beq_iff_eq] at h
  exact ⟨h.1.1, h.1.2, h.2⟩

lemma copyLoop_contig (pre : List RevRecord) :
    ∀ (rest : List RevRecord) (e n : Nat) (store : List Nat),
      contigValidFrom ((e + 1) % U32) pre = true →
      copyLoop (pre ++ rest) e n store =
        copyLoop rest (endOf e pre) (n + pre.length)
          (store ++ pre.map RevRecord.blocknum) := by
  induction pre with
  | nil =>
    intro rest e n store _
    simp [endOf]
  | cons r pre ih =>
    intro rest e n store hc
    obtain ⟨h1, h2, h3⟩ := contig_cons _ _ _ hc
    simp only [List.cons_append, copyLoop]
    rw [if_pos h1, if_pos h2, List.append_eq, ih _ _ _ _ h3]
    rw [show endOf e (r :: pre) = endOf r.blocknum pre from rfl,
      show store ++ List.map RevRecord.blocknum (r :: pre) =
        (store ++ [r.blocknum]) ++ List.map RevRecord.blocknum pre by simp,
      show (r :: pre).length = pre.length + 1 from rfl,
      show n + (pre.length + 1) = n + 1 + pre.length by omega]

lemma copyLoop_store_extends (recs : List RevRecord) :
    ∀ (e n : Nat) (store : List Nat),
      ∃ tail, (copyLoop recs e n store).1 = store ++ tail := by
  induction recs with
  | nil =>
    intro e n store
    exact ⟨[], by simp [copyLoop]⟩
  | cons r rest ih =>
    intro e n store
    simp only [copyLoop]
    by_cases h1 : r.blocknum = (e + 1) % U32
    · rw [if_pos h1]
      by_cases h2 : r.valid = true
      · rw [if_pos h2]
        obtain ⟨tail, ht⟩ := ih r.blocknum (n + 1) (store ++ [r.blocknum])
        exact ⟨r.blocknum :: tail, by rw [ht]; simp⟩
      · rw [if_neg h2]
        exact ⟨[], by simp⟩
    · rw [if_neg h1]
      exact ⟨[], by simp⟩

lemma emod_start (s : Nat) (h : s < U32) :
    ((s + U32 - 1) % U32 + 1) % U32 = s := by
  rcases Nat.eq_zero_or_pos s with hs | hs
  · subst hs
    decide
  · have h1 : s + U32 - 1 = (s - 1) + U32 := by omega
    rw [h1, Nat.add_mod_right, Nat.mod_eq_of_lt (show s - 1 < U32 by omega)]
    have h2 : s - 1 + 1 = s := by omega
    rw [h2, Nat.mod_eq_of_lt h]

lemma runCopy_gap (r0 : RevRecord) (pre : List RevRecord) (g : RevRecord)
    (rest : List RevRecord)
    (hlt : r0.blocknum < U32)
    (hcv : contigValidFrom r0.blocknum (r0 :: pre) = true)
    (hgap : g.blocknum ≠ (endOf r0.blocknum pre + 1) % U32) :
    runCopy (r0 :: (pre ++ g :: rest)) =
      ⟨(r0 :: pre).map RevRecord.blocknum, pre.length + 1,
       r0.blocknum, endOf r0.blocknum pre⟩ := by
  have hc : contigValidFrom (((r0.blocknum + U32 - 1) % U32 + 1) % U32)
      (r0 :: pre) = true := by
    rw [emod_start _ hlt]
    exact hcv
  have h := copyLoop_contig (r0 :: pre) (g :: rest)
    ((r0.blocknum + U32 - 1) % U32) 0 [] hc
  have hl : r0 :: (pre ++ g :: rest) = (r0 :: pre) ++ (g :: rest) := rfl
  simp only [runCopy, hl, h, endOf]
  simp only [copyLoop, if_neg hgap]
  simp

lemma runCopy_extends (r0 : RevRecord) (pre rest : List RevRecord)
    (hlt : r0.blocknum < U32)
    (hcv : contigValidFrom r0.blocknum (r0 :: pre) = true) :
    ∃ tail, (runCopy (r0 :: (pre ++ rest))).store =
      (r0 :: pre).map RevRecord.blocknum ++ tail := by
  have hc : contigValidFrom (((r0.blocknum + U32 - 1) % U32 + 1) % U32)
      (r0 :: pre) = true := by
    rw [emod_start _ hlt]
    exact hcv
  have h := copyLoop_contig (r0 :: pre) rest
    ((r0.blocknum + U32 - 1) % U32) 0 [] hc
  have hl : r0 :: (pre ++ rest) = (r0 :: pre) ++ rest := rfl
  obtain ⟨tail, ht⟩ := copyLoop_store_extends rest (endOf r0.blocknum pre)
    (0 + (r0 :: pre).length) ([] ++ (r0 :: pre).map RevRecord.blocknum)
  refine ⟨tail, ?_⟩
  simp only [runCopy, hl, h, endOf]
  simpa using ht

/-- Backup store whose records sit at heights 5 and 7 (an internal gap),
reached through the rename path of a dirty live store. -/
def exGapInp : RecoverInput := ⟨.dirtySignal, false, false, [⟨5, true⟩, ⟨7, true⟩]⟩

/-! ## Remaining operation models -/

/-- Outcome of the ledger core applying a block inside
read_write::push_block (line 491): success, a
boost::interprocess::bad_alloc, or any other exception. -/
inductive ApplyOutcome
  | ok
  | badAlloc
  | err (e : Nat)
deriving DecidableEq, Repr

/-- What read_write::push_block (lines 488-499) does, seen from the caller:
either it returns normally, having issued the given number of SIGUSR1
emergency-shutdown requests, or it propagates an exception. -/
inductive PushBlockResult
  | done (sigusr1Count : Nat)
  | thrown (e : Nat)
deriving DecidableEq, Repr

/-- read_write::push_block, lines 488-499: bad_alloc is caught and converted
into a single raise(SIGUSR1) (line 494) after which the function returns
normally; every other exception is re-raised unchanged (lines 496-498). -/
def push_block (o : ApplyOutcome) : PushBlockResult :=
  match o with
  | .ok => .done 0
  | .badAlloc => .done 1
  | .err e => .thrown e

/-- Outcome of the bound transaction-sync method on one transaction:
a trace (with its id), a bad_alloc, an fc::exception carrying a detail
string, or some other exception. -/
inductive SyncOutcome
  | ok (id trace : Nat)
  | badAlloc
  | fcErr (detail : Nat)
  | otherErr (e : Nat)
deriving Repr

/-- One transaction submitted to read_write::push_transaction: the result of
the ABI from_variant decoding step (lines 506-511; an error there is
rethrown as a packed_transaction_type_exception with a detail), and the
behaviour of the transaction-sync method on it as a function of the
boolean flag passed at line 513. -/
structure TxItem where
  parse : Except Nat Nat
  sync : Bool → SyncOutcome

/-- What read_write::push_transaction reports to its caller: a returned
result record (whose id is none when it is the default-constructed
placeholder transaction id), a propagated fc::exception detail, or a
propagated non-fc exception. -/
inductive PTResult
  | ok (id : Option Nat) (output : Nat)
  | fcThrown (detail : Nat)
  | otherThrown (e : Nat)
deriving DecidableEq, Repr

/-- Body of read_write::push_transaction (lines 501-527) parameterised by the
flag handed to the transaction-sync method: a parse failure propagates as an
fc::exception; on success the sync method is invoked with the flag; its
trace is rendered and returned with its id; a bad_alloc is caught, one
SIGUSR1 is raised (line 521) and the function falls through to return the
still-default id and output; an fc error or other exception propagates
(lines 523-525).  The second component counts SIGUSR1 raises. -/
def push_transaction_with (flag : Bool) (it : TxItem) : PTResult × Nat :=
  match it.parse with
  | .error d => (.fcThrown d, 0)
  | .ok _ =>
    match it.sync flag with
    | .ok id trace => (.ok (some id) trace, 0)
    | .badAlloc => (.ok none 0, 1)
    | .fcErr d => (.fcThrown d, 0)
    | .otherErr e => (.otherThrown e, 0)

/-- read_write::push_transaction, lines 501-527: the source passes the literal
true as the second argument of the transaction-sync method (line 513). -/
def push_transaction (it : TxItem) : PTResult × Nat :=
  push_transaction_with true it

/-- chain_plugin::accept_transaction, lines 325-328: forwards to the bound
transaction-sync method with the flag false and returns its trace; nothing
is caught, so any outcome propagates unchanged. -/
def accept_transaction (sync : Bool → SyncOutcome) : SyncOutcome :=
  sync false

/-- One entry of the vector built by read_write::push_transactions: the
transaction id (none for the default-constructed placeholder) and either a
rendered output (inl) or an error detail object (inr), per lines 538-543. -/
structure BatchRecord where
  id : Option Nat
  body : Sum Nat Nat
deriving DecidableEq, Repr

/-- What read_write::push_transactions does: reject the batch via the
FC_ASSERT at line 531, finish the loop with the built result vector (and
total SIGUSR1 count), or propagate a non-fc exception out of the batch
(lines 549-551). -/
inductive BatchResult
  | rejected
  | completed (records : List BatchRecord) (signals : Nat)
  | aborted (e : Nat) (signals : Nat)
deriving Repr

/-- The loop of lines 536-544: each item runs through push_transaction; a
returned result is appended; an fc::exception is caught per item and
converted into a record with the placeholder id and the error detail
(lines 540-543); any other exception leaves the loop and propagates. -/
def batchGo : List TxItem → List BatchRecord → Nat → BatchResult
  | [], acc, sigs => .completed acc sigs
  | it :: rest, acc, sigs =>
    match push_transaction it with
    | (.ok id out, s) => batchGo rest (acc ++ [⟨id, Sum.inl out⟩]) (sigs + s)
    | (.fcThrown d, s) => batchGo rest (acc ++ [⟨none, Sum.inr d⟩]) (sigs + s)
    | (.otherThrown e, s) => .aborted e (sigs + s)

/-- read_write::push_transactions, lines 529-552: batches of more than 1000
items fail the FC_ASSERT at line 531 before any item is processed. -/
def push_transactions (items : List TxItem) : BatchResult :=
  if 1000 < items.length then .rejected
  else batchGo items [] 0

/-- Record an item's processing produces in the result vector. -/
def itemRecord (it : TxItem) : BatchRecord :=
  match (push_transaction it).1 with
  | .ok id out => ⟨id, Sum.inl out⟩
  | .fcThrown d => ⟨none, Sum.inr d⟩
  | .otherThrown e => ⟨none, Sum.inr e⟩

/-- Total SIGUSR1 raises over a batch. -/
def batchSignals : List TxItem → Nat
  | [] => 0
  | it :: rest => (push_transaction it).2 + batchSignals rest

/-- Whether a push_transaction outcome is a propagated non-fc exception. -/
def isOtherThrown : PTResult → Bool
  | .otherThrown _ => true
  | _ => false

lemma batchGo_clean (items : List TxItem) :
    ∀ (acc : List BatchRecord) (sigs : Nat),
      (∀ it ∈ items, isOtherThrown (push_transaction it).1 = false) →
      batchGo items acc sigs =
        .completed (acc ++ items.map itemRecord) (sigs + batchSignals items) := by
  induction items with
  | nil =>
    intro acc sigs _
    simp [batchGo, batchSignals]
  | cons it rest ih =>
    intro acc sigs h
    have hit : isOtherThrown (push_transaction it).1 = false :=
      h it (List.mem_cons_self it rest)
    have hrest : ∀ x ∈ rest, isOtherThrown (push_transaction x).1 = false :=
      fun x hx => h x (List.mem_cons_of_mem it hx)
    rcases hp : push_transaction it with ⟨res, s⟩
    cases res with
    | ok id out =>
      simp only [batchGo, hp, ih _ _ hrest, itemRecord, batchSignals, hp,
        List.map_cons]
      rw [show acc ++ [(⟨id, Sum.inl out⟩ : BatchRecord)] ++
            List.map itemRecord rest =
          acc ++ (⟨id, Sum.inl out⟩ : BatchRecord) :: List.map itemRecord rest
          by simp,
        show sigs + s + batchSignals rest = sigs + (s + batchSignals rest)
          by omega]
    | fcThrown d =>
      simp only [batchGo, hp, ih _ _ hrest, itemRecord, batchSignals, hp,
        List.map_cons]
      rw [show acc ++ [(⟨none, Sum.inr d⟩ : BatchRecord)] ++
            List.map itemRecord rest =
          acc ++ (⟨none, Sum.inr d⟩ : BatchRecord) :: List.map itemRecord rest
          by simp,
        show sigs + s + batchSignals rest = sigs + (s + batchSignals rest)
          by omega]
    | otherThrown e =>
      rw [hp] at hit
      simp [isOtherThrown] at hit

/-! ## Genesis-timestamp snapping (plugin_initialize, lines 129-144) -/

/-- The snap computation performed when the genesis-timestamp override is the
string "now" (lines 131-139): nowUs is fc::time_point::now() in microseconds
since the epoch, intervalMs is block_interval_ms.  The code computes
epoch_ms = count/1000, diff_ms = epoch_ms mod the interval, and when
diff_ms is positive adds fc::microseconds(delay_ms * 10000) to the
timestamp (line 137). -/
def snap_genesis_timestamp (nowUs intervalMs : Nat) : Nat :=
  let epochMs := nowUs / 1000
  let diffMs := epochMs % intervalMs
  if diffMs > 0 then nowUs + (intervalMs - diffMs) * 10000 else nowUs

/-- Modelled from the claim's words: the smallest time (in microseconds) not
earlier than now whose millisecond offset from the epoch is a multiple of
the block interval. -/
def nextIntervalBoundary (nowUs intervalMs : Nat) : Nat :=
  let ivUs := intervalMs * 1000
  if nowUs % ivUs = 0 then nowUs else (nowUs / ivUs + 1) * ivUs

/-! ## Block lookup (read_only::get_block, lines 467-486) -/

/-- Environment of one get_block call on a fixed identifier string:
parseId is the result of fc::json::from_string(s).as of block_id_type
(line 471; none when that raises), fetchById the controller lookup by id,
parseNum the result of fc::to_uint64(s) (line 473; none when that raises),
and fetchByNum the controller lookup by height. -/
structure GetBlockEnv where
  parseId : Option Nat
  fetchById : Nat → Option Nat
  parseNum : Option Nat
  fetchByNum : Nat → Option Nat

/-- Caller-visible outcome of read_only::get_block: the rendered block, the
block_id_type_exception produced by the EVT_RETHROW_EXCEPTIONS wrapper at
line 476, or the unknown_block_exception of the EVT_ASSERT at line 478. -/
inductive GetBlockResult
  | ok (block : Nat)
  | invalidId
  | unknownBlock
deriving DecidableEq, Repr

/-- read_only::get_block, lines 467-486: the string is first parsed and looked
up as a canonical id; only when that lookup yields no block is the string
re-parsed as a number and looked up by height; any exception inside the try
block (either parse failing) becomes the invalid-id error; a block found by
neither lookup fails the unknown-block assertion afterwards. -/
def get_block (env : GetBlockEnv) : GetBlockResult :=
  match env.parseId with
  | none => .invalidId
  | some id =>
    match env.fetchById id with
    | some b => .ok b
    | none =>
      match env.parseNum with
      | none => .invalidId
      | some n =>
        match env.fetchByNum n with
        | some b => .ok b
        | none => .unknownBlock

/-! ## Plugin lifecycle (plugin_initialize / plugin_startup / plugin_shutdown) -/

/-- Lifecycle phase of the plugin: registered (constructed, before
plugin_initialize), starting (plugin_initialize done, line 236 onwards ran),
started (plugin_startup done), stopped (plugin_shutdown done). -/
inductive LifecyclePhase
  | registered
  | starting
  | started
  | stopped
deriving DecidableEq, Repr

/-- Observable ownership state of the plugin: its phase, whether the
controller instance my->chain exists, and whether the six scoped-connection
subscription tokens exist. -/
structure PluginState where
  phase : LifecyclePhase
  chainExists : Bool
  connectionsExist : Bool
deriving DecidableEq, Repr

/-- Freshly constructed plugin (chain_plugin::chain_plugin, lines 92-94):
no controller, no connections. -/
def initialState : PluginState := ⟨.registered, false, false⟩

/-- Lifecycle transitions of the plugin.  plugin_initialize (lines 119-279)
emplaces the controller (line 236) and installs the six signal connections
(lines 256-278); plugin_startup (lines 281-297) starts the chain without
changing ownership; plugin_shutdown (lines 299-308) resets the six
connections and then the controller. -/
inductive LifecycleStep : PluginState → PluginState → Prop
  | configure :
      LifecycleStep ⟨.registered, false, false⟩ ⟨.starting, true, true⟩
  | startup (c k : Bool) :
      LifecycleStep ⟨.starting, c, k⟩ ⟨.started, c, k⟩
  | shutdownFromStarting (c k : Bool) :
      LifecycleStep ⟨.starting, c, k⟩ ⟨.stopped, false, false⟩
  | shutdownFromStarted (c k : Bool) :
      LifecycleStep ⟨.started, c, k⟩ ⟨.stopped, false, false⟩

/-- States reachable from the freshly constructed plugin. -/
inductive LifecycleReachable : PluginState → Prop
  | init : LifecycleReachable initialState
  | step {s t : PluginState} :
      LifecycleReachable s → LifecycleStep s t → LifecycleReachable t

/-! ## Claim theorems -/

/-- C1 counterexample: claim C1 states that a gap in the backup records
(heights 5 then 7) fails the whole recovery fatally and leaves the live
store in its fresh empty state; on the code the gap assertion is swallowed
by the blank catch, block 5 stays persisted, and the function reports
recovered with a nonempty live store. -/
theorem recover_gap_counterexample :
    recover_reversible_blocks exGapInp =
      (.recovered [5] 1 5 5,
       [.renameLiveToBackup, .createFreshLive, .writeRecord 5]) ∧
    storeOf (recover_reversible_blocks exGapInp).1 ≠ [] := by
  constructor
  · decide
  · decide

/-- C1 (amended): when the backup records are a nonempty valid contiguous run
followed by a record whose height breaks contiguity, the gap assertion
aborts the copy loop at the gap: exactly the pre-gap records are persisted
in the fresh live store, nothing at or after the gap is copied, and
recover_reversible_blocks still returns recovered with the pre-gap count
and height range. -/
theorem recover_gap_behavior (inp : RecoverInput) (r0 : RevRecord)
    (pre : List RevRecord) (g : RevRecord) (rest : List RevRecord)
    (hopen : inp.openLive = .dirtySignal)
    (hpath : inp.explicitNewDir = true ∨ inp.backupExists = false)
    (hrecs : inp.backupRecords = r0 :: (pre ++ g :: rest))
    (hlt : r0.blocknum < U32)
    (hcv : contigValidFrom r0.blocknum (r0 :: pre) = true)
    (hgap : g.blocknum ≠ (endOf r0.blocknum pre + 1) % U32) :
    (recover_reversible_blocks inp).1 =
      .recovered ((r0 :: pre).map RevRecord.blocknum) (pre.length + 1)
        r0.blocknum (endOf r0.blocknum pre) := by
  have hrc := runCopy_gap r0 pre g rest hlt hcv hgap
  rcases hpath with hp | hp
  · simp [recover_reversible_blocks, hopen, hp, hrecs, hrc]
  · rcases he : inp.explicitNewDir with hv | hv
    · simp [recover_reversible_blocks, hopen, he, hp, hrecs, hrc]
    · simp [recover_reversible_blocks, hopen, he, hrecs, hrc]

/-- C1 amended-theorem witness at the concrete gap input with heights 5, 7. -/
theorem recover_gap_behavior_witness :
    (recover_reversible_blocks exGapInp).1 = .recovered [5] 1 5 5 :=
  recover_gap_behavior exGapInp ⟨5, true⟩ [] ⟨7, true⟩ [] rfl (Or.inr rfl)
    rfl (by decide) (by decide) (by decide)

/-- C2: a memory-exhaustion failure while applying a block makes push_block
issue exactly one SIGUSR1 emergency-shutdown request and return without
propagating the error; a successful apply issues none; every other
exception is re-raised to the caller unchanged. -/
theorem push_block_oom_shutdown :
    push_block .badAlloc = .done 1 ∧
    push_block .ok = .done 0 ∧
    ∀ e, push_block (.err e) = .thrown e :=
  ⟨rfl, rfl, fun _ => rfl⟩

/-- C3: push_transactions rejects batches of more than 1000 items outright
before processing any item; otherwise, when no item raises a non-fc
exception, the call completes with exactly one result per item in order,
each per-item fc failure recorded with the placeholder (null) id and its
error detail, each success recorded normally, so a single bad transaction
never aborts the remaining items. -/
theorem push_transactions_batch_semantics (items : List TxItem) :
    (1000 < items.length → push_transactions items = .rejected) ∧
    (items.length ≤ 1000 →
      (∀ it ∈ items, isOtherThrown (push_transaction it).1 = false) →
      push_transactions items =
        .completed (items.map itemRecord) (batchSignals items) ∧
      (items.map itemRecord).length = items.length ∧
      (∀ it ∈ items, ∀ d, (push_transaction it).1 = .fcThrown d →
        itemRecord it = ⟨none, Sum.inr d⟩) ∧
      (∀ it ∈ items, ∀ id out, (push_transaction it).1 = .ok id out →
        itemRecord it = ⟨id, Sum.inl out⟩)) := by
  constructor
  · intro h
    simp [push_transactions, h]
  · intro hlen hok
    refine ⟨?_, by simp, ?_, ?_⟩
    · have h := batchGo_clean items [] 0 hok
      simp only [push_transactions, if_neg (by omega : ¬ 1000 < items.length)]
      simpa using h
    · intro it _ d hd
      simp [itemRecord, hd]
    · intro it _ id out ho
      simp [itemRecord, ho]

/-- Batch of three transactions whose second item fails ABI decoding with
detail 42 while items one and three process normally. -/
def exBatch : List TxItem :=
  [⟨Except.ok 1, fun _ => SyncOutcome.ok 11 101⟩,
   ⟨Except.error 42, fun _ => SyncOutcome.ok 0 0⟩,
   ⟨Except.ok 3, fun _ => SyncOutcome.ok 33 303⟩]

/-- C3 witness: the three-item batch with a malformed second item yields three
results in order, the second carrying the placeholder id and the error
detail while the first and third are normal results. -/
theorem push_transactions_batch_semantics_witness :
    push_transactions exBatch =
      BatchResult.completed
        [⟨some 11, Sum.inl 101⟩, ⟨none, Sum.inr 42⟩, ⟨some 33, Sum.inl 303⟩]
        0 := by
  have hok : ∀ it ∈ exBatch, isOtherThrown (push_transaction it).1 = false := by
    intro it hit
    simp only [exBatch, List.mem_cons, List.not_mem_nil, or_false] at hit
    rcases hit with rfl | rfl | rfl <;> rfl
  have h := (push_transactions_batch_semantics exBatch).2 (by decide) hok
  exact h.1.trans rfl

/-- C4: a reversible store whose read-only open succeeds is clean, so
recover_reversible_blocks returns not-recovered having performed no
filesystem action (the store is left unchanged); an open failure other than
the recoverable corruption signal is re-raised unchanged, also with no
filesystem action. -/
theorem recover_clean_noop (inp : RecoverInput) :
    (inp.openLive = .clean →
      recover_reversible_blocks inp = (.notRecovered, [])) ∧
    (∀ e, inp.openLive = .otherError e →
      recover_reversible_blocks inp = (.raised e, [])) := by
  constructor
  · intro h
    simp [recover_reversible_blocks, h]
  · intro e h
    simp [recover_reversible_blocks, h]

/-- C4 witness at a concrete clean store. -/
theorem recover_clean_noop_witness :
    recover_reversible_blocks ⟨.clean, false, false, []⟩ =
      (.notRecovered, []) :=
  (recover_clean_noop ⟨.clean, false, false, []⟩).1 rfl

/-- C5: at nowUs = 1000 microseconds past the epoch with a 500 ms block
interval, the code's "now" snap produces 4991000 microseconds: it adds
delay_ms * 10000 microseconds, ten times the intended delay, overshooting
the next block-interval boundary (500000) and landing on a time whose
millisecond offset is not a multiple of the interval, contradicting the
claimed (and logged) snap-to-next-boundary behaviour. -/
theorem genesis_now_snap_bug :
    snap_genesis_timestamp 1000 500 = 4991000 ∧
    nextIntervalBoundary 1000 500 = 500000 ∧
    snap_genesis_timestamp 1000 500 % (500 * 1000) ≠ 0 ∧
    snap_genesis_timestamp 1000 500 ≠ nextIntervalBoundary 1000 500 := by
  refine ⟨by decide, by decide, by decide, by decide⟩

/-- C6: in every reachable lifecycle state the controller instance exists
exactly when the plugin is in the starting or started phase, and the
subscription tokens exist exactly when the controller exists. -/
theorem lifecycle_invariant (s : PluginState) (h : LifecycleReachable s) :
    (s.chainExists = true ↔ (s.phase = .starting ∨ s.phase = .started)) ∧
    s.connectionsExist = s.chainExists := by
  induction h with
  | init => decide
  | step hs hstep ih =>
    cases hstep with
    | configure => decide
    | startup c k =>
      have hc : c = true := ih.1.mpr (Or.inl rfl)
      have hk : k = true := ih.2.trans hc
      subst hc
      subst hk
      decide
    | shutdownFromStarting c k => decide
    | shutdownFromStarted c k => decide

/-- C6 witness at the freshly constructed plugin state. -/
theorem lifecycle_invariant_witness :
    (initialState.chainExists = true ↔
      (initialState.phase = .starting ∨ initialState.phase = .started)) ∧
    initialState.connectionsExist = initialState.chainExists :=
  lifecycle_invariant initialState LifecycleReachable.init

/-- C7: in get_block the canonical-id lookup takes precedence; only when the
parsed id matches no block does the call fall back to numeric parsing and
height lookup; a string failing the id parse, or failing the fallback
numeric parse, is reported as the invalid-id error; a fallback height
lookup that finds no block is reported as the distinct unknown-block
error. -/
theorem get_block_lookup_semantics (env : GetBlockEnv) :
    (∀ id b, env.parseId = some id → env.fetchById id = some b →
      get_block env = .ok b) ∧
    (∀ id n, env.parseId = some id → env.fetchById id = none →
      env.parseNum = some n →
      get_block env =
        (match env.fetchByNum n with
         | some b => .ok b
         | none => .unknownBlock)) ∧
    (env.parseId = none → get_block env = .invalidId) ∧
    (∀ id, env.parseId = some id → env.fetchById id = none →
      env.parseNum = none → get_block env = .invalidId) ∧
    GetBlockResult.invalidId ≠ GetBlockResult.unknownBlock := by
  refine ⟨?_, ?_, ?_, ?_, by decide⟩
  · intro id b h1 h2
    simp [get_block, h1, h2]
  · intro id n h1 h2 h3
    simp [get_block, h1, h2, h3]
  · intro h1
    simp [get_block, h1]
  · intro id h1 h2 h3
    simp [get_block, h1, h2, h3]

/-- C7 witness: a syntactically invalid identifier (its id parse fails) is
reported as the invalid-id error. -/
theorem get_block_lookup_semantics_witness :
    get_block ⟨none, fun _ => none, none, fun _ => none⟩ =
      GetBlockResult.invalidId :=
  (get_block_lookup_semantics
    ⟨none, fun _ => none, none, fun _ => none⟩).2.2.1 rfl

/-- C8: in the rename path of a dirty store, when a directory with the exact
computed backup name already exists, recovery fails the assertion with an
empty filesystem-action trace: it fails loudly before any data is touched
and never overwrites the existing backup. -/
theorem recover_backup_no_overwrite (inp : RecoverInput)
    (h1 : inp.openLive = .dirtySignal)
    (h2 : inp.explicitNewDir = false)
    (h3 : inp.backupExists = true) :
    recover_reversible_blocks inp = (.backupNameTaken, []) := by
  simp [recover_reversible_blocks, h1, h2, h3]

/-- C8 witness at a concrete dirty store whose backup name is taken. -/
theorem recover_backup_no_overwrite_witness :
    recover_reversible_blocks ⟨.dirtySignal, false, true, [⟨5, true⟩]⟩ =
      (.backupNameTaken, []) :=
  recover_backup_no_overwrite ⟨.dirtySignal, false, true, [⟨5, true⟩]⟩
    rfl rfl rfl

/-- C9 counterexample: a transaction-sync method that reports which flag it
received shows read_write::push_transaction forwarding with the flag set to
true, not cleared to false as claim C9 states for both entry points. -/
theorem push_transaction_flag_counterexample :
    push_transaction ⟨Except.ok 0, fun b => SyncOutcome.ok (cond b 1 0) 7⟩ =
      (.ok (some 1) 7, 0) ∧
    push_transaction_with false
        ⟨Except.ok 0, fun b => SyncOutcome.ok (cond b 1 0) 7⟩ =
      (.ok (some 0) 7, 0) ∧
    push_transaction ⟨Except.ok 0, fun b => SyncOutcome.ok (cond b 1 0) 7⟩ ≠
      push_transaction_with false
        ⟨Except.ok 0, fun b => SyncOutcome.ok (cond b 1 0) 7⟩ :=
  ⟨rfl, rfl, by decide⟩

/-- C9 (amended): chain_plugin::accept_transaction forwards to the bound
transaction-sync method with the flag cleared (false) and returns the
resulting trace, while the read-write push_transaction API forwards with
the flag set (true). -/
theorem submission_sync_flags :
    (∀ sync : Bool → SyncOutcome, accept_transaction sync = sync false) ∧
    (∀ it : TxItem, push_transaction it = push_transaction_with true it) :=
  ⟨fun _ => rfl, fun _ => rfl⟩

/-- C10: once the initial open raises the recoverable corruption signal and
the backup step does not fail, recover_reversible_blocks reports recovered
unconditionally, whatever the backup records contain and wherever the copy
loop stops; the live store holds exactly what the copy phase wrote, and any
valid contiguous run of records at the head of the backup is persisted
there whatever follows it. -/
theorem recover_best_effort (inp : RecoverInput)
    (hopen : inp.openLive = .dirtySignal)
    (hpath : inp.explicitNewDir = true ∨ inp.backupExists = false) :
    isRecovered (recover_reversible_blocks inp).1 = true ∧
    storeOf (recover_reversible_blocks inp).1 =
      (runCopy inp.backupRecords).store ∧
    (∀ (r0 : RevRecord) (pre rest : List RevRecord),
      inp.backupRecords = r0 :: (pre ++ rest) →
      r0.blocknum < U32 →
      contigValidFrom r0.blocknum (r0 :: pre) = true →
      ∃ tail, storeOf (recover_reversible_blocks inp).1 =
        (r0 :: pre).map RevRecord.blocknum ++ tail) := by
  have hmain : isRecovered (recover_reversible_blocks inp).1 = true ∧
      storeOf (recover_reversible_blocks inp).1 =
        (runCopy inp.backupRecords).store := by
    rcases hpath with hp | hp
    · simp [recover_reversible_blocks, hopen, hp, isRecovered, storeOf]
    · rcases he : inp.explicitNewDir with hv | hv
      · simp [recover_reversible_blocks, hopen, he, hp, isRecovered, storeOf]
      · simp [recover_reversible_blocks, hopen, he, isRecovered, storeOf]
  refine ⟨hmain.1, hmain.2, ?_⟩
  intro r0 pre rest hrecs hlt hcv
  obtain ⟨tail, ht⟩ := runCopy_extends r0 pre rest hlt hcv
  refine ⟨tail, ?_⟩
  rw [hmain.2, hrecs, ht]

/-- Dirty store recovered into an explicitly supplied fresh directory from a
backup with a gap after height 5. -/
def exBestEffortInp : RecoverInput :=
  ⟨.dirtySignal, true, false, [⟨5, true⟩, ⟨7, true⟩]⟩

/-- C10 witness: with backup heights 5 and 7 the run still reports recovered
and persists exactly the pre-gap block 5. -/
theorem recover_best_effort_witness :
    isRecovered (recover_reversible_blocks exBestEffortInp).1 = true ∧
    storeOf (recover_reversible_blocks exBestEffortInp).1 = [5] := by
  have h := recover_best_effort exBestEffortInp rfl (Or.inl rfl)
  exact ⟨h.1, h.2.1.trans (by decide)⟩
